import Mathlib

/-!
Shallow embedding of `src/federated_health_risk/monitoring/drift_detector.py`
(`DataDriftDetector`): data model, the KS and PSI drift tests, report
generation, and JSON serialization of reports.

Modelling conventions:
* floats are modelled as exact rationals `ℚ`; a pandas/numpy `NaN` arising
  from a degenerate computation (empty sample, sample standard deviation of
  fewer than two values) is modelled as `none : Option ℚ`;
* a missing cell of a column is `none : Option ℚ`, so `Series.dropna` is
  `List.filterMap id`;
* the SciPy two-sample KS computation `stats.ks_2samp` (library code, not
  part of the repository) is an abstract parameter
  `ks2samp : List ℚ → List ℚ → ℚ × ℚ` returning `(statistic, p_value)`;
* the natural logarithm `np.log` and the square root used by `pandas.std`
  are abstract parameters `log sqrtA : ℚ → ℚ` (they are irrational on ℚ);
* Python's `/` raising `ZeroDivisionError` on an integer zero denominator is
  modelled by `pyDiv : ℚ → ℚ → Option ℚ` returning `none`, and a function
  that can raise returns an `Option`;
* `pd.Timestamp.now()` is modelled by passing the clock reading as an
  explicit `now : String` argument.
-/

attribute [local semireducible] Rat.mul Rat.inv Rat.add Rat.sub

namespace Drift

/-- One column of a tabular snapshot: its label, whether pandas infers a
numeric dtype for it (`select_dtypes(include=[np.number])` keeps it), and its
cells, where `none` models a missing value. -/
structure Column where
  name : String
  numeric : Bool
  vals : List (Option ℚ)
deriving Repr, DecidableEq

/-- A `pd.DataFrame` snapshot: its row count (`len(df)`) and its columns. -/
structure DataFrame where
  nrows : ℕ
  cols : List Column
deriving Repr, DecidableEq

/-- Labels of the numeric columns, in column order:
`df.select_dtypes(include=[np.number]).columns`. -/
def DataFrame.numericNames (df : DataFrame) : List String :=
  (df.cols.filter (fun c => c.numeric)).map (fun c => c.name)

/-- Membership test `col in df.columns`. -/
def DataFrame.hasColumn (df : DataFrame) (c : String) : Bool :=
  df.cols.any (fun col => col.name == c)

/-- Cell values of column `c` (`df[c]`); the empty list when absent. -/
def DataFrame.getCol (df : DataFrame) (c : String) : List (Option ℚ) :=
  match df.cols.find? (fun col => col.name == c) with
  | some col => col.vals
  | none => []

/-- `Series.dropna()`: discard missing values. -/
def dropna (xs : List (Option ℚ)) : List ℚ :=
  xs.filterMap id

/-- Python's true division, raising (`none`) on a zero denominator. -/
def pyDiv (a b : ℚ) : Option ℚ :=
  if b = 0 then none else some (a / b)

/-- Sum of a list of rationals (`np.sum` / pandas `.sum()`). -/
def listSum (xs : List ℚ) : ℚ :=
  xs.foldr (· + ·) 0

/-! ### Column statistics (`DataDriftDetector._compute_statistics`) -/

/-- Per-column statistics record; `none` models the `NaN` pandas returns on a
degenerate input (empty column for the order statistics and the mean, fewer
than two values for the sample standard deviation). -/
structure ColStats where
  mean : Option ℚ
  std : Option ℚ
  min : Option ℚ
  max : Option ℚ
  median : Option ℚ
  q25 : Option ℚ
  q75 : Option ℚ
deriving Repr, DecidableEq

/-- Insert a value into an ascending list, keeping it ascending. -/
def insertAsc (x : ℚ) : List ℚ → List ℚ
  | [] => [x]
  | y :: ys => if x ≤ y then x :: y :: ys else y :: insertAsc x ys

/-- Ascending sort (the order pandas quantiles are read off from). -/
def sortAsc (xs : List ℚ) : List ℚ :=
  xs.foldr insertAsc []

/-- Linear-interpolation quantile of a sorted nonempty list at `q ∈ [0,1]`,
pandas' default `Series.quantile` interpolation. -/
def quantileSorted (s : List ℚ) (q : ℚ) : ℚ :=
  let h : ℚ := q * ((s.length : ℚ) - 1)
  let lo : ℕ := h.floor.toNat
  let a := s.getD lo 0
  let b := s.getD (lo + 1) a
  a + (h - (lo : ℚ)) * (b - a)

/-- `Series.quantile(q)` after dropping missing values. -/
def seriesQuantile (xs : List ℚ) (q : ℚ) : Option ℚ :=
  if xs = [] then none
  else some (quantileSorted (sortAsc xs) q)

/-- `Series.mean()` (skips missing values; `NaN` on an empty column). -/
def seriesMean (xs : List ℚ) : Option ℚ :=
  if xs = [] then none else some (listSum xs / (xs.length : ℚ))

/-- `Series.std()` with pandas' default `ddof = 1`; `NaN` below two values.
`sqrtA` stands for the square root. -/
def seriesStd (sqrtA : ℚ → ℚ) (xs : List ℚ) : Option ℚ :=
  if xs.length ≤ 1 then none
  else
    let m := listSum xs / (xs.length : ℚ)
    some (sqrtA (listSum (xs.map (fun x => (x - m) ^ 2)) / ((xs.length : ℚ) - 1)))

/-- Statistics of one column's values, as `_compute_statistics` stores them. -/
def computeColStats (sqrtA : ℚ → ℚ) (vals : List (Option ℚ)) : ColStats :=
  let xs := dropna vals
  { mean := seriesMean xs
    std := seriesStd sqrtA xs
    min := xs.min?
    max := xs.max?
    median := seriesQuantile xs (1 / 2)
    q25 := seriesQuantile xs (1 / 4)
    q75 := seriesQuantile xs (3 / 4) }

/-- `_compute_statistics(data)`: statistics of every numeric column, keyed by
column label in column order. -/
def compute_statistics (sqrtA : ℚ → ℚ) (df : DataFrame) : List (String × ColStats) :=
  (df.cols.filter (fun c => c.numeric)).map
    (fun c => (c.name, computeColStats sqrtA c.vals))

/-! ### The detector -/

/-- `DataDriftDetector(reference_data, threshold=0.05)`; `reference_stats`
is recomputable from the frozen `reference_data`, see `reference_stats`. -/
structure DataDriftDetector where
  reference_data : DataFrame
  threshold : ℚ
deriving Repr, DecidableEq

/-- The reference statistics the constructor computes once and stores. -/
def DataDriftDetector.reference_stats (sqrtA : ℚ → ℚ) (d : DataDriftDetector) :
    List (String × ColStats) :=
  compute_statistics sqrtA d.reference_data

/-- Resolution of the optional `columns` argument: `None` means every numeric
column of the reference data. -/
def resolveColumns (d : DataDriftDetector) (columns : Option (List String)) :
    List String :=
  columns.getD d.reference_data.numericNames

/-- Python `dict` insertion `m[k] = v`: overwrite in place when the key
exists, else append (insertion order preserved). -/
def dictInsert {α : Type} (m : List (String × α)) (k : String) (v : α) :
    List (String × α) :=
  if m.any (fun p => p.1 == k) then
    m.map (fun p => if p.1 == k then (k, v) else p)
  else m ++ [(k, v)]

/-! ### KS drift test (`detect_drift_ks_test`) -/

/-- Per-column KS test result. -/
structure KSResult where
  statistic : ℚ
  p_value : ℚ
  is_drifted : Bool
  threshold : ℚ
deriving Repr, DecidableEq

/-- Summary returned by either drift test (`α` is the per-column result). -/
structure TestSummary (α : Type) where
  total_features : ℕ
  drifted_features : ℕ
  drift_percentage : ℚ
  drifted_feature_names : List String
  details : List (String × α)
deriving Repr, DecidableEq

/-- The KS result the loop body computes for one column: both samples drop
their missing values independently, then `stats.ks_2samp` runs on them. -/
def ksResultFor (d : DataDriftDetector) (ks2samp : List ℚ → List ℚ → ℚ × ℚ)
    (current : DataFrame) (col : String) : KSResult :=
  let sp := ks2samp (dropna (d.reference_data.getCol col))
                    (dropna (current.getCol col))
  { statistic := sp.1
    p_value := sp.2
    is_drifted := decide (sp.2 < d.threshold)
    threshold := d.threshold }

/-- The `for col in columns` loop of `detect_drift_ks_test`, threading the
state `(drift_results, drifted_features)`; a column absent from the current
data is skipped (warning only). -/
def ksLoop (d : DataDriftDetector) (ks2samp : List ℚ → List ℚ → ℚ × ℚ)
    (current : DataFrame) (columns : List String) :
    List (String × KSResult) × List String :=
  columns.foldl
    (fun acc col =>
      if current.hasColumn col then
        let res := ksResultFor d ks2samp current col
        (dictInsert acc.1 col res,
         if res.is_drifted then acc.2 ++ [col] else acc.2)
      else acc)
    ([], [])

/-- `detect_drift_ks_test(current_data, columns)`; `none` models the
`ZeroDivisionError` raised by `len(drifted)/len(columns)` when the resolved
column list is empty. -/
def detect_drift_ks_test (d : DataDriftDetector)
    (ks2samp : List ℚ → List ℚ → ℚ × ℚ) (current : DataFrame)
    (columns : Option (List String)) : Option (TestSummary KSResult) :=
  let cols := resolveColumns d columns
  let st := ksLoop d ks2samp current cols
  match pyDiv (st.2.length : ℚ) (cols.length : ℚ) with
  | none => none
  | some q =>
      some { total_features := cols.length
             drifted_features := st.2.length
             drift_percentage := q * 100
             drifted_feature_names := st.2
             details := st.1 }

/-! ### PSI drift test (`detect_drift_psi`) -/

/-- Per-column PSI result; `psi = none` models the `NaN` that the float
pipeline produces when either dropped sample is empty. -/
structure PSIResult where
  psi : Option ℚ
  drift_level : String
  is_drifted : Bool
deriving Repr, DecidableEq

/-- Histogram range of `np.histogram(xs, bins=n)`: `(min, max)` of the data,
padded to `(min - 0.5, max + 0.5)` when all values coincide, and numpy's
default `(0, 1)` for empty data. -/
def histRange (xs : List ℚ) : ℚ × ℚ :=
  match xs.min?, xs.max? with
  | some lo, some hi => if lo = hi then (lo - 1 / 2, hi + 1 / 2) else (lo, hi)
  | _, _ => (0, 1)

/-- The `bins + 1` equally spaced edges `np.histogram` lays over
`[lo, hi]`. -/
def binEdges (lo hi : ℚ) (bins : ℕ) : List ℚ :=
  (List.range (bins + 1)).map (fun i => lo + (hi - lo) * (i : ℚ) / (bins : ℚ))

/-- Histogram counts against explicit `edges`: value `v` lands in bin `i`
when `edges[i] ≤ v < edges[i+1]`, the last bin also accepting its right
edge; values outside the edges are not counted (numpy's rule). -/
def histCounts (edges : List ℚ) (xs : List ℚ) : List ℕ :=
  let nb := edges.length - 1
  (List.range nb).map (fun i =>
    (xs.filter (fun v =>
      decide (edges.getD i 0 ≤ v) &&
      (decide (v < edges.getD (i + 1) 0) ||
       (decide (i + 1 = nb) && decide (v = edges.getD (i + 1) 0))))).length)

/-- Replace the exactly-zero fractions by `0.0001`
(`np.where(percents == 0, 0.0001, percents)`). -/
def floorZeros (xs : List ℚ) : List ℚ :=
  xs.map (fun x => if x = 0 then 1 / 10000 else x)

/-- The PSI sum `np.sum((curr - ref) * log(curr / ref))` over paired bin
fractions. -/
def psiSum (log : ℚ → ℚ) (currp refp : List ℚ) : ℚ :=
  listSum ((currp.zip refp).map (fun p => (p.1 - p.2) * log (p.1 / p.2)))

/-- The PSI value the loop body computes for one column: edges from the
reference sample only, the same edges reused on the current sample, counts
normalised by each sample's own size, zeros floored, then the PSI sum.
`none` models the `NaN` produced when either dropped sample is empty
(division of the counts by a zero length). -/
def psiColumn (log : ℚ → ℚ) (bins : ℕ) (refv currv : List ℚ) : Option ℚ :=
  if refv.length = 0 ∨ currv.length = 0 then none
  else
    let r := histRange refv
    let edges := binEdges r.1 r.2 bins
    let ref_counts := histCounts edges refv
    let curr_counts := histCounts edges currv
    let ref_percents := floorZeros (ref_counts.map (fun (k : ℕ) => (k : ℚ) / (refv.length : ℚ)))
    let curr_percents := floorZeros (curr_counts.map (fun (k : ℕ) => (k : ℚ) / (currv.length : ℚ)))
    some (psiSum log curr_percents ref_percents)

/-- The `if psi >= 0.2 / elif psi >= 0.1 / else` classification; a `NaN`
psi fails every float comparison, so it falls to the `else` branch. -/
def classifyPSI (psi : Option ℚ) : String × Bool :=
  match psi with
  | some p =>
      if p ≥ 1 / 5 then ("significant", true)
      else if p ≥ 1 / 10 then ("moderate", true)
      else ("none", false)
  | none => ("none", false)

/-- The PSI result the loop body stores for one column. -/
def psiResultFor (d : DataDriftDetector) (log : ℚ → ℚ) (bins : ℕ)
    (current : DataFrame) (col : String) : PSIResult :=
  let p := psiColumn log bins (dropna (d.reference_data.getCol col))
                              (dropna (current.getCol col))
  let c := classifyPSI p
  { psi := p, drift_level := c.1, is_drifted := c.2 }

/-- The `for col in columns` loop of `detect_drift_psi`; a column absent
from the current data is skipped silently. -/
def psiLoop (d : DataDriftDetector) (log : ℚ → ℚ) (bins : ℕ)
    (current : DataFrame) (columns : List String) :
    List (String × PSIResult) × List String :=
  columns.foldl
    (fun acc col =>
      if current.hasColumn col then
        let res := psiResultFor d log bins current col
        (dictInsert acc.1 col res,
         if res.is_drifted then acc.2 ++ [col] else acc.2)
      else acc)
    ([], [])

/-- `detect_drift_psi(current_data, columns, bins=10)`; `none` models the
`ZeroDivisionError` raised when the resolved column list is empty. -/
def detect_drift_psi (d : DataDriftDetector) (log : ℚ → ℚ)
    (current : DataFrame) (columns : Option (List String)) (bins : ℕ) :
    Option (TestSummary PSIResult) :=
  let cols := resolveColumns d columns
  let st := psiLoop d log bins current cols
  match pyDiv (st.2.length : ℚ) (cols.length : ℚ) with
  | none => none
  | some q =>
      some { total_features := cols.length
             drifted_features := st.2.length
             drift_percentage := q * 100
             drifted_feature_names := st.2
             details := st.1 }

/-! ### Report generation (`generate_drift_report`) -/

/-- The report dictionary, with `statistics_comparison` flattened into its
two entries `reference` and `current`. -/
structure DriftReport where
  timestamp : String
  reference_samples : ℕ
  current_samples : ℕ
  ks_test : TestSummary KSResult
  psi_test : TestSummary PSIResult
  statistics_reference : List (String × ColStats)
  statistics_current : List (String × ColStats)
  overall_drift_detected : Bool
deriving Repr, DecidableEq

/-- `generate_drift_report(current_data)`: both tests over the default
column set, the statistics comparison, and the overall verdict. `now` is the
`pd.Timestamp.now().isoformat()` reading; `none` models the propagated
`ZeroDivisionError` of either test. -/
def generate_drift_report (d : DataDriftDetector)
    (ks2samp : List ℚ → List ℚ → ℚ × ℚ) (log : ℚ → ℚ) (sqrtA : ℚ → ℚ)
    (now : String) (current : DataFrame) : Option DriftReport :=
  match detect_drift_ks_test d ks2samp current none with
  | none => none
  | some ksr =>
    match detect_drift_psi d log current none 10 with
    | none => none
    | some psir =>
        some { timestamp := now
               reference_samples := d.reference_data.nrows
               current_samples := current.nrows
               ks_test := ksr
               psi_test := psir
               statistics_reference := d.reference_stats sqrtA
               statistics_current := compute_statistics sqrtA current
               overall_drift_detected :=
                 decide (ksr.drifted_features > 0) ||
                 decide (psir.drifted_features > 0) }

/-- Everything of a report except its timestamp. -/
def DriftReport.core (r : DriftReport) :
    ℕ × ℕ × TestSummary KSResult × TestSummary PSIResult ×
    List (String × ColStats) × List (String × ColStats) × Bool :=
  (r.reference_samples, r.current_samples, r.ks_test, r.psi_test,
   r.statistics_reference, r.statistics_current, r.overall_drift_detected)

/-! ### Report serialization (`save_report`)

The report is a Python object tree; `save_report` first applies
`convert_to_json_serializable` (numpy scalars to Python scalars, arrays to
lists) and then `json.dump`s the result with the default options, under
which a non-finite float is written as the JavaScript-style bare token
`NaN`, `Infinity` or `-Infinity` (CPython's `allow_nan=True` default). -/

/-- A Python float value: finite (exact rational model), or one of the
non-finite values. -/
inductive PyFloat where
  | finite (q : ℚ)
  | nan
  | inf
  | ninf
deriving Repr, DecidableEq

/-- `float(x)` of an `Option ℚ` model value: `none` (a NaN produced
upstream) stays NaN. -/
def pyFloatOf : Option ℚ → PyFloat
  | some q => .finite q
  | none => .nan

mutual
/-- A Python value as `save_report` sees it: dicts, lists, Python scalars,
and the numpy scalar/array types `convert_to_json_serializable` looks for. -/
inductive PyVal where
  | str (s : String) : PyVal
  | int (n : ℤ) : PyVal
  | float (x : PyFloat) : PyVal
  | bool (b : Bool) : PyVal
  | npInt (n : ℤ) : PyVal
  | npFloat (x : PyFloat) : PyVal
  | npBool (b : Bool) : PyVal
  | npArray (xs : PyList) : PyVal
  | dict (kvs : PyFields) : PyVal
  | list (xs : PyList) : PyVal
deriving Repr, DecidableEq

/-- The key/value entries of a Python dict, in insertion order. -/
inductive PyFields where
  | nil : PyFields
  | cons (k : String) (v : PyVal) (rest : PyFields) : PyFields
deriving Repr, DecidableEq

/-- The items of a Python list. -/
inductive PyList where
  | nil : PyList
  | cons (v : PyVal) (rest : PyList) : PyList
deriving Repr, DecidableEq
end

mutual
/-- `convert_to_json_serializable`: recurse through dicts and lists, turn
`np.integer`/`np.floating` into `float(obj)`, `np.bool_` into `bool(obj)`,
`np.ndarray` into a list, and leave everything else unchanged. -/
def convert : PyVal → PyVal
  | .dict kvs => .dict (convertFields kvs)
  | .list xs => .list (convertList xs)
  | .npInt n => .float (.finite (n : ℚ))
  | .npFloat x => .float x
  | .npBool b => .bool b
  | .npArray xs => .list (convertList xs)
  | v => v

/-- `convert` over dict entries. -/
def convertFields : PyFields → PyFields
  | .nil => .nil
  | .cons k v rest => .cons k (convert v) (convertFields rest)

/-- `convert` over list items. -/
def convertList : PyList → PyList
  | .nil => .nil
  | .cons v rest => .cons (convert v) (convertList rest)
end

/-- One lexical token of `json.dump`'s output. -/
inductive JsonToken where
  | lbrace | rbrace | lbrack | rbrack | colon | comma
  | strTok (s : String)
  | numTok (q : ℚ)
  | trueTok | falseTok
  | nanTok | infTok | ninfTok
deriving Repr, DecidableEq

/-- How CPython's `json.dump` writes a float with the default
`allow_nan=True`: a number for a finite value, the bare tokens `NaN`,
`Infinity`, `-Infinity` otherwise. -/
def floatTok : PyFloat → JsonToken
  | .finite q => .numTok q
  | .nan => .nanTok
  | .inf => .infTok
  | .ninf => .ninfTok

/-- Whether a token belongs to the JSON grammar; the bare non-finite float
tokens do not (RFC 8259 has no `NaN`/`Infinity` literals). -/
def JsonToken.isValidJson : JsonToken → Bool
  | .nanTok => false
  | .infTok => false
  | .ninfTok => false
  | _ => true

/-- Every emitted token is in the JSON grammar. -/
def jsonValidTokens (ts : List JsonToken) : Bool :=
  ts.all JsonToken.isValidJson

mutual
/-- `json.dump` as a token stream; `none` models the `TypeError` the default
encoder raises on a type it does not know (the numpy integer, bool and
array types — `np.floating` subclasses Python `float` and serializes). -/
def dump : PyVal → Option (List JsonToken)
  | .str s => some [.strTok s]
  | .int n => some [.numTok (n : ℚ)]
  | .float x => some [floatTok x]
  | .bool b => some [if b then .trueTok else .falseTok]
  | .npInt _ => none
  | .npFloat x => some [floatTok x]
  | .npBool _ => none
  | .npArray _ => none
  | .dict kvs =>
      match dumpFields kvs with
      | none => none
      | some ts => some ([JsonToken.lbrace] ++ ts ++ [JsonToken.rbrace])
  | .list xs =>
      match dumpList xs with
      | none => none
      | some ts => some ([JsonToken.lbrack] ++ ts ++ [JsonToken.rbrack])

/-- Dict entries as `"key": value` token runs (separators elided: they play
no role in validity). -/
def dumpFields : PyFields → Option (List JsonToken)
  | .nil => some []
  | .cons k v rest =>
      match dump v, dumpFields rest with
      | some tv, some tr => some ([JsonToken.strTok k, JsonToken.colon] ++ tv ++ tr)
      | _, _ => none

/-- List items as token runs. -/
def dumpList : PyList → Option (List JsonToken)
  | .nil => some []
  | .cons v rest =>
      match dump v, dumpList rest with
      | some tv, some tr => some (tv ++ tr)
      | _, _ => none
end

/-! #### The report as a Python value -/

/-- Helper: a `PyFields` from a list of entries. -/
def fieldsOf : List (String × PyVal) → PyFields
  | [] => .nil
  | (k, v) :: rest => .cons k v (fieldsOf rest)

/-- Helper: a `PyList` from a list of values. -/
def pyListOf : List PyVal → PyList
  | [] => .nil
  | v :: rest => .cons v (pyListOf rest)

/-- A per-column KS result dict: `float(statistic)` and `float(p_value)` are
Python floats, `is_drifted` is the `np.bool_` of `p_value < threshold`, and
`threshold` is the Python float the detector was built with. -/
def ksResultToPy (r : KSResult) : PyVal :=
  .dict (fieldsOf
    [("statistic", .float (.finite r.statistic)),
     ("p_value", .float (.finite r.p_value)),
     ("is_drifted", .npBool r.is_drifted),
     ("threshold", .float (.finite r.threshold))])

/-- A per-column PSI result dict: `float(psi)` keeps a NaN psi NaN,
`drift_level` is a string, `is_drifted` an `np.bool_`. -/
def psiResultToPy (r : PSIResult) : PyVal :=
  .dict (fieldsOf
    [("psi", .float (pyFloatOf r.psi)),
     ("drift_level", .str r.drift_level),
     ("is_drifted", .npBool r.is_drifted)])

/-- A test summary dict (counts are Python ints from `len`, the percentage a
Python float, the names a list of strings). -/
def summaryToPy {α : Type} (resToPy : α → PyVal) (s : TestSummary α) : PyVal :=
  .dict (fieldsOf
    [("total_features", .int (s.total_features : ℤ)),
     ("drifted_features", .int (s.drifted_features : ℤ)),
     ("drift_percentage", .float (.finite s.drift_percentage)),
     ("drifted_feature_names", .list (pyListOf (s.drifted_feature_names.map .str))),
     ("details", .dict (fieldsOf (s.details.map (fun p => (p.1, resToPy p.2)))))])

/-- A column-statistics dict; pandas reductions return numpy floats, and a
degenerate one is NaN. -/
def colStatsToPy (c : ColStats) : PyVal :=
  .dict (fieldsOf
    [("mean", .npFloat (pyFloatOf c.mean)),
     ("std", .npFloat (pyFloatOf c.std)),
     ("min", .npFloat (pyFloatOf c.min)),
     ("max", .npFloat (pyFloatOf c.max)),
     ("median", .npFloat (pyFloatOf c.median)),
     ("q25", .npFloat (pyFloatOf c.q25)),
     ("q75", .npFloat (pyFloatOf c.q75))])

/-- A statistics mapping (column → statistics dict). -/
def statsToPy (m : List (String × ColStats)) : PyVal :=
  .dict (fieldsOf (m.map (fun p => (p.1, colStatsToPy p.2))))

/-- The full report dict exactly as `generate_drift_report` assembles it. -/
def reportToPy (r : DriftReport) : PyVal :=
  .dict (fieldsOf
    [("timestamp", .str r.timestamp),
     ("reference_samples", .int (r.reference_samples : ℤ)),
     ("current_samples", .int (r.current_samples : ℤ)),
     ("ks_test", summaryToPy ksResultToPy r.ks_test),
     ("psi_test", summaryToPy psiResultToPy r.psi_test),
     ("statistics_comparison", .dict (fieldsOf
        [("reference", statsToPy r.statistics_reference),
         ("current", statsToPy r.statistics_current)])),
     ("overall_drift_detected", .bool r.overall_drift_detected)])

/-- The token stream `save_report` writes for a report: convert, then dump
(`none` would model a `TypeError`; the conversion prevents it). -/
def save_report_tokens (r : DriftReport) : Option (List JsonToken) :=
  dump (convert (reportToPy r))

/-- Whether a statistics record holds a non-finite (NaN) value. -/
def ColStats.hasNaN (c : ColStats) : Bool :=
  c.mean.isNone || c.std.isNone || c.min.isNone || c.max.isNone ||
  c.median.isNone || c.q25.isNone || c.q75.isNone

/-- Whether a report holds any non-finite floating value: a NaN psi or a
NaN statistic (the only non-finite sources in the pipeline). -/
def DriftReport.hasNaN (r : DriftReport) : Bool :=
  r.psi_test.details.any (fun p => p.2.psi.isNone) ||
  r.statistics_reference.any (fun p => (p.2).hasNaN) ||
  r.statistics_current.any (fun p => (p.2).hasNaN)

/-! ### Spec-side reference definition of PSI (for the refinement claim) -/

/-- The spec's bin edges (§4.3 step 2): "bin edges are derived from the
reference sample only using `bins` equal-width histogram edges" — `bins + 1`
equally spaced cut points spanning the reference sample's range. -/
def specEdges (refv : List ℚ) (bins : ℕ) : List ℚ :=
  let lo := refv.min?.getD 0
  let hi := refv.max?.getD 0
  (List.range (bins + 1)).map (fun i => lo + (hi - lo) * (i : ℚ) / (bins : ℚ))

/-- The spec's PSI of one column (§4.3 steps 2–4): the reference-derived
edges histogram both samples, bin counts become fractions of each sample's
total count, every zero fraction is replaced by 0.0001, and
PSI = Σ over bins of (current_frac − reference_frac) × log(current_frac /
reference_frac). -/
def psi_spec (log : ℚ → ℚ) (bins : ℕ) (refv currv : List ℚ) : ℚ :=
  let edges := specEdges refv bins
  let refFrac := (histCounts edges refv).map (fun (k : ℕ) => (k : ℚ) / (refv.length : ℚ))
  let currFrac := (histCounts edges currv).map (fun (k : ℕ) => (k : ℚ) / (currv.length : ℚ))
  let refFloored := refFrac.map (fun x => if x = 0 then 1 / 10000 else x)
  let currFloored := currFrac.map (fun x => if x = 0 then 1 / 10000 else x)
  listSum ((currFloored.zip refFloored).map (fun p => (p.1 - p.2) * log (p.1 / p.2)))

/-! ### Concrete instances (used by witnesses and counterexamples) -/

/-- A stand-in for the abstract KS library routine: statistic 0, p-value 1. -/
def ksConst : List ℚ → List ℚ → ℚ × ℚ := fun _ _ => (0, 1)

/-- A computable stand-in for the natural logarithm with its sign behaviour
(`logLin x ≥ 0` iff `x ≥ 1`). -/
def logLin : ℚ → ℚ := fun q => q - 1

/-- A computable stand-in for the square root (its values never matter to
any statement proved here). -/
def sqrtId : ℚ → ℚ := fun q => q

/-- Reference frame with numeric columns `a`, `b`. -/
def refA : DataFrame := ⟨2, [⟨"a", true, [some 0, some 1]⟩, ⟨"b", true, [some 0, some 1]⟩]⟩

/-- Current frame that lacks column `b`. -/
def curA : DataFrame := ⟨1, [⟨"a", true, [some 0]⟩]⟩

/-- Detector over `refA` at the default threshold 0.05. -/
def dA : DataDriftDetector := ⟨refA, 1 / 20⟩

/-- Detector whose reference data has no numeric columns. -/
def dE : DataDriftDetector := ⟨⟨0, []⟩, 1 / 20⟩

/-- One-row reference frame (its column statistics have a NaN std). -/
def refB : DataFrame := ⟨1, [⟨"x", true, [some 1]⟩]⟩

/-- One-row current frame identical to `refB`. -/
def curB : DataFrame := ⟨1, [⟨"x", true, [some 1]⟩]⟩

/-- Detector over `refB`. -/
def dB : DataDriftDetector := ⟨refB, 1 / 20⟩

/-- The KS result recorded for column `a` of `dA` against `curA`. -/
def resA : KSResult := ⟨0, 1, false, 1 / 20⟩

/-- The KS summary `detect_drift_ks_test dA ksConst curA none` returns. -/
def sA : TestSummary KSResult :=
  ⟨2, 0, 0, [], [("a", resA)]⟩

/-- The PSI value of column `a` for `dA` against `curA` with `logLin`. -/
def pA : ℚ := 49990001 / 50000000

/-- The PSI result recorded for column `a` of `dA` against `curA`. -/
def resAP : PSIResult := ⟨some pA, "significant", true⟩

/-- The PSI summary `detect_drift_psi dA logLin curA none 10` returns. -/
def sAP : TestSummary PSIResult :=
  ⟨2, 1, 50, ["a"], [("a", resAP)]⟩

/-- The report `generate_drift_report dB ksConst logLin sqrtId t curB`
returns at clock reading `t = "2026-03-01T00:00:00"`; its statistics hold a
NaN standard deviation (single-row samples). -/
def reportB : DriftReport :=
  { timestamp := "2026-03-01T00:00:00"
    reference_samples := 1
    current_samples := 1
    ks_test := ⟨1, 0, 0, [], [("x", ⟨0, 1, false, 1 / 20⟩)]⟩
    psi_test := ⟨1, 0, 0, [], [("x", ⟨some 0, "none", false⟩)]⟩
    statistics_reference := [("x", ⟨some 1, none, some 1, some 1, some 1, some 1, some 1⟩)]
    statistics_current := [("x", ⟨some 1, none, some 1, some 1, some 1, some 1, some 1⟩)]
    overall_drift_detected := false }

/-! ### Lemmas about the per-column loops -/

/-- Both test loops share this shape: walk the column list, skip the absent
columns, record the per-column result and collect the drifted names. Stated
by recursion to ease induction; `ksLoop_eq`/`psiLoop_eq` connect it to the
`foldl` form of the definitions. -/
def loopRun {α : Type} (present : String → Bool) (f : String → α)
    (isDr : α → Bool) :
    List String → List (String × α) × List String →
    List (String × α) × List String
  | [], acc => acc
  | col :: rest, acc =>
      loopRun present f isDr rest
        (if present col then
          (dictInsert acc.1 col (f col),
           if isDr (f col) then acc.2 ++ [col] else acc.2)
         else acc)

lemma loopRun_eq_foldl {α : Type} (present : String → Bool) (f : String → α)
    (isDr : α → Bool) :
    ∀ (cols : List String) (acc : List (String × α) × List String),
      cols.foldl
        (fun acc col =>
          if present col then
            (dictInsert acc.1 col (f col),
             if isDr (f col) then acc.2 ++ [col] else acc.2)
          else acc) acc = loopRun present f isDr cols acc := by
  intro cols
  induction cols with
  | nil => intro acc; rfl
  | cons col rest ih => intro acc; simp only [List.foldl_cons, loopRun]; exact ih _

lemma ksLoop_eq (d : DataDriftDetector) (ks2samp : List ℚ → List ℚ → ℚ × ℚ)
    (current : DataFrame) (cols : List String) :
    ksLoop d ks2samp current cols =
      loopRun (fun c => current.hasColumn c) (ksResultFor d ks2samp current)
        (fun r => r.is_drifted) cols ([], []) :=
  loopRun_eq_foldl _ _ _ cols ([], [])

lemma psiLoop_eq (d : DataDriftDetector) (log : ℚ → ℚ) (bins : ℕ)
    (current : DataFrame) (cols : List String) :
    psiLoop d log bins current cols =
      loopRun (fun c => current.hasColumn c) (psiResultFor d log bins current)
        (fun r => r.is_drifted) cols ([], []) :=
  loopRun_eq_foldl _ _ _ cols ([], [])

lemma dictInsert_of_fresh {α : Type} (m : List (String × α)) (k : String) (v : α)
    (h : m.any (fun p => p.1 == k) = false) :
    dictInsert m k v = m ++ [(k, v)] := by
  simp only [dictInsert, h]
  rfl

lemma mem_dictInsert {α : Type} {m : List (String × α)} {k : String} {v : α}
    {p : String × α} (h : p ∈ dictInsert m k v) : p ∈ m ∨ p = (k, v) := by
  by_cases hm : m.any (fun q => q.1 == k) = true
  · simp only [dictInsert, hm, if_true, List.mem_map] at h
    obtain ⟨q, hq, hpq⟩ := h
    by_cases hk : (q.1 == k) = true
    · rw [if_pos hk] at hpq
      exact Or.inr hpq.symm
    · rw [if_neg hk] at hpq
      exact Or.inl (hpq ▸ hq)
  · rw [dictInsert_of_fresh m k v (Bool.eq_false_iff.mpr hm)] at h
    rcases List.mem_append.mp h with h1 | h1
    · exact Or.inl h1
    · exact Or.inr (List.mem_singleton.mp h1)

/-- Every entry the loop ever records for a key is the per-column result
function applied to that key (overwrites rewrite the same value). -/
lemma loopRun_entries {α : Type} (present : String → Bool) (f : String → α)
    (isDr : α → Bool) :
    ∀ (cols : List String) (acc : List (String × α) × List String),
      (∀ p ∈ acc.1, p.2 = f p.1) →
      ∀ p ∈ (loopRun present f isDr cols acc).1, p.2 = f p.1 := by
  intro cols
  induction cols with
  | nil => intro acc hacc p hp; exact hacc p hp
  | cons col rest ih =>
      intro acc hacc p hp
      simp only [loopRun] at hp
      by_cases hpres : present col
      · rw [if_pos hpres] at hp
        refine ih _ ?_ p hp
        intro q hq
        rcases mem_dictInsert hq with h1 | h1
        · exact hacc q h1
        · rw [h1]
      · rw [if_neg hpres] at hp
        exact ih _ hacc p hp

/-- Closed form of the loop on a duplicate-free column list: the details
are one entry per requested column present in the current data, in order,
and the drifted names are those whose result is drifted. -/
lemma loopRun_closed {α : Type} (present : String → Bool) (f : String → α)
    (isDr : α → Bool) :
    ∀ (cols : List String) (res : List (String × α)) (dr : List String),
      cols.Nodup → (∀ c ∈ cols, res.any (fun p => p.1 == c) = false) →
      loopRun present f isDr cols (res, dr) =
        (res ++ (cols.filter present).map (fun c => (c, f c)),
         dr ++ ((cols.filter present).filter (fun c => isDr (f c)))) := by
  intro cols
  induction cols with
  | nil => intro res dr _ _; simp [loopRun]
  | cons col rest ih =>
      intro res dr hnd hfresh
      have hndr : rest.Nodup := (List.nodup_cons.mp hnd).2
      have hcolr : col ∉ rest := (List.nodup_cons.mp hnd).1
      by_cases hpres : present col
      · have hf : res.any (fun p => p.1 == col) = false :=
          hfresh col (List.mem_cons_self col rest)
        have step : loopRun present f isDr (col :: rest) (res, dr) =
            loopRun present f isDr rest
              (res ++ [(col, f col)],
               if isDr (f col) then dr ++ [col] else dr) := by
          simp only [loopRun, if_pos hpres, dictInsert_of_fresh res col (f col) hf]
        rw [step, ih _ _ hndr ?_]
        · have hfilter : (col :: rest).filter present =
              col :: rest.filter present := by
            simp [List.filter_cons, hpres]
          rw [hfilter, Prod.mk.injEq]
          refine ⟨by simp, ?_⟩
          by_cases hdr : isDr (f col) <;>
            simp [List.filter_cons, hdr]
        · intro c hc
          have h1 : res.any (fun p => p.1 == c) = false :=
            hfresh c (List.mem_cons_of_mem col hc)
          have h2 : col ≠ c := fun h => hcolr (h ▸ hc)
          simp only [List.any_append, h1, List.any_cons, List.any_nil]
          simp [h2]
      · have step : loopRun present f isDr (col :: rest) (res, dr) =
            loopRun present f isDr rest (res, dr) := by
          simp only [loopRun, if_neg hpres]
        rw [step, ih _ _ hndr (fun c hc => hfresh c (List.mem_cons_of_mem col hc))]
        have hfilter : (col :: rest).filter present = rest.filter present := by
          simp [List.filter_cons, hpres]
        rw [hfilter]

/-! ### Lemmas about the summary constructors -/

lemma pyDiv_eq_some {a b q : ℚ} (h : pyDiv a b = some q) : b ≠ 0 ∧ q = a / b := by
  unfold pyDiv at h
  split at h
  · exact absurd h (by simp)
  · exact ⟨by assumption, (Option.some.injEq _ _ ▸ h).symm⟩

lemma pyDiv_zero (a : ℚ) : pyDiv a 0 = none := by
  simp [pyDiv]

/-- What a returned KS summary's fields are, in terms of the loop. -/
lemma detect_ks_components (d : DataDriftDetector)
    (ks2samp : List ℚ → List ℚ → ℚ × ℚ) (current : DataFrame)
    (columns : Option (List String)) (s : TestSummary KSResult)
    (h : detect_drift_ks_test d ks2samp current columns = some s) :
    s.total_features = (resolveColumns d columns).length ∧
    s.drifted_features = s.drifted_feature_names.length ∧
    s.drift_percentage =
      (s.drifted_feature_names.length : ℚ) / ((resolveColumns d columns).length : ℚ) * 100 ∧
    s.drifted_feature_names = (ksLoop d ks2samp current (resolveColumns d columns)).2 ∧
    s.details = (ksLoop d ks2samp current (resolveColumns d columns)).1 ∧
    resolveColumns d columns ≠ [] := by
  simp only [detect_drift_ks_test] at h
  split at h
  · exact absurd h (by simp)
  · rename_i q hq
    obtain ⟨hb, hqv⟩ := pyDiv_eq_some hq
    have hne : resolveColumns d columns ≠ [] := by
      intro hc
      exact hb (by rw [hc]; simp)
    obtain rfl := (Option.some.injEq _ _ ▸ h)
    exact ⟨rfl, rfl, by rw [hqv], rfl, rfl, hne⟩

/-- What a returned PSI summary's fields are, in terms of the loop. -/
lemma detect_psi_components (d : DataDriftDetector) (log : ℚ → ℚ)
    (current : DataFrame) (columns : Option (List String)) (bins : ℕ)
    (s : TestSummary PSIResult)
    (h : detect_drift_psi d log current columns bins = some s) :
    s.total_features = (resolveColumns d columns).length ∧
    s.drifted_features = s.drifted_feature_names.length ∧
    s.drift_percentage =
      (s.drifted_feature_names.length : ℚ) / ((resolveColumns d columns).length : ℚ) * 100 ∧
    s.drifted_feature_names = (psiLoop d log bins current (resolveColumns d columns)).2 ∧
    s.details = (psiLoop d log bins current (resolveColumns d columns)).1 ∧
    resolveColumns d columns ≠ [] := by
  simp only [detect_drift_psi] at h
  split at h
  · exact absurd h (by simp)
  · rename_i q hq
    obtain ⟨hb, hqv⟩ := pyDiv_eq_some hq
    have hne : resolveColumns d columns ≠ [] := by
      intro hc
      exact hb (by rw [hc]; simp)
    obtain rfl := (Option.some.injEq _ _ ▸ h)
    exact ⟨rfl, rfl, by rw [hqv], rfl, rfl, hne⟩

/-- An empty resolved column list makes the KS test raise. -/
lemma detect_ks_none (d : DataDriftDetector)
    (ks2samp : List ℚ → List ℚ → ℚ × ℚ) (current : DataFrame)
    (columns : Option (List String)) (h : resolveColumns d columns = []) :
    detect_drift_ks_test d ks2samp current columns = none := by
  simp [detect_drift_ks_test, h, ksLoop, pyDiv]

/-- An empty resolved column list makes the PSI test raise. -/
lemma detect_psi_none (d : DataDriftDetector) (log : ℚ → ℚ)
    (current : DataFrame) (columns : Option (List String)) (bins : ℕ)
    (h : resolveColumns d columns = []) :
    detect_drift_psi d log current columns bins = none := by
  simp [detect_drift_psi, h, psiLoop, pyDiv]

/-- Every details entry of a returned KS summary is the per-column result
of its key. -/
lemma detect_ks_details (d : DataDriftDetector)
    (ks2samp : List ℚ → List ℚ → ℚ × ℚ) (current : DataFrame)
    (columns : Option (List String)) (s : TestSummary KSResult)
    (h : detect_drift_ks_test d ks2samp current columns = some s) :
    ∀ p ∈ s.details, p.2 = ksResultFor d ks2samp current p.1 := by
  have hc := detect_ks_components d ks2samp current columns s h
  rw [hc.2.2.2.2.1, ksLoop_eq]
  exact loopRun_entries _ _ _ _ ([], []) (by intro p hp; cases hp)

/-- Every details entry of a returned PSI summary is the per-column result
of its key. -/
lemma detect_psi_details (d : DataDriftDetector) (log : ℚ → ℚ)
    (current : DataFrame) (columns : Option (List String)) (bins : ℕ)
    (s : TestSummary PSIResult)
    (h : detect_drift_psi d log current columns bins = some s) :
    ∀ p ∈ s.details, p.2 = psiResultFor d log bins current p.1 := by
  have hc := detect_psi_components d log current columns bins s h
  rw [hc.2.2.2.2.1, psiLoop_eq]
  exact loopRun_entries _ _ _ _ ([], []) (by intro p hp; cases hp)

/-- Closed form of a returned KS summary over a duplicate-free column
list. -/
lemma detect_ks_closed (d : DataDriftDetector)
    (ks2samp : List ℚ → List ℚ → ℚ × ℚ) (current : DataFrame)
    (columns : Option (List String)) (s : TestSummary KSResult)
    (hnd : (resolveColumns d columns).Nodup)
    (h : detect_drift_ks_test d ks2samp current columns = some s) :
    s.details =
      ((resolveColumns d columns).filter (fun c => current.hasColumn c)).map
        (fun c => (c, ksResultFor d ks2samp current c)) ∧
    s.drifted_feature_names =
      ((resolveColumns d columns).filter (fun c => current.hasColumn c)).filter
        (fun c => (ksResultFor d ks2samp current c).is_drifted) := by
  have hc := detect_ks_components d ks2samp current columns s h
  have hclosed := loopRun_closed (fun c => current.hasColumn c)
    (ksResultFor d ks2samp current) (fun r => r.is_drifted)
    (resolveColumns d columns) [] [] hnd (by intro c _; rfl)
  constructor
  · rw [hc.2.2.2.2.1, ksLoop_eq, hclosed]
    simp
  · rw [hc.2.2.2.1, ksLoop_eq, hclosed]
    simp

/-- Closed form of a returned PSI summary over a duplicate-free column
list. -/
lemma detect_psi_closed (d : DataDriftDetector) (log : ℚ → ℚ)
    (current : DataFrame) (columns : Option (List String)) (bins : ℕ)
    (s : TestSummary PSIResult)
    (hnd : (resolveColumns d columns).Nodup)
    (h : detect_drift_psi d log current columns bins = some s) :
    s.details =
      ((resolveColumns d columns).filter (fun c => current.hasColumn c)).map
        (fun c => (c, psiResultFor d log bins current c)) ∧
    s.drifted_feature_names =
      ((resolveColumns d columns).filter (fun c => current.hasColumn c)).filter
        (fun c => (psiResultFor d log bins current c).is_drifted) := by
  have hc := detect_psi_components d log current columns bins s h
  have hclosed := loopRun_closed (fun c => current.hasColumn c)
    (psiResultFor d log bins current) (fun r => r.is_drifted)
    (resolveColumns d columns) [] [] hnd (by intro c _; rfl)
  constructor
  · rw [hc.2.2.2.2.1, psiLoop_eq, hclosed]
    simp
  · rw [hc.2.2.2.1, psiLoop_eq, hclosed]
    simp

/-! ### Lemmas about the PSI computation -/

lemma listSum_nonneg (xs : List ℚ) (h : ∀ x ∈ xs, 0 ≤ x) : 0 ≤ listSum xs := by
  induction xs with
  | nil => simp [listSum]
  | cons x rest ih =>
      have hx := h x (List.mem_cons_self x rest)
      have hr := ih (fun y hy => h y (List.mem_cons_of_mem x hy))
      simp only [listSum, List.foldr_cons]
      exact add_nonneg hx hr

/-- After normalising by a positive sample size and flooring zeros, every
bin fraction is strictly positive. -/
lemma floorZeros_pos (counts : List ℕ) (n : ℕ) :
    ∀ x ∈ floorZeros (counts.map (fun (k : ℕ) => (k : ℚ) / (n : ℚ))), 0 < x := by
  intro x hx
  unfold floorZeros at hx
  rw [List.map_map, List.mem_map] at hx
  obtain ⟨k, _, rfl⟩ := hx
  simp only [Function.comp_apply]
  by_cases hz : (k : ℚ) / (n : ℚ) = 0
  · rw [if_pos hz]
    norm_num
  · rw [if_neg hz]
    have hnn : (0 : ℚ) ≤ (k : ℚ) / (n : ℚ) :=
      div_nonneg (Nat.cast_nonneg k) (Nat.cast_nonneg n)
    exact lt_of_le_of_ne hnn (Ne.symm hz)

/-- Each PSI term `(c − r) · log(c / r)` is non-negative for positive `c`,
`r` and a sign-correct `log`. -/
lemma psiSum_nonneg (log : ℚ → ℚ)
    (hlog1 : ∀ x : ℚ, 1 ≤ x → 0 ≤ log x)
    (hlog2 : ∀ x : ℚ, 0 < x → x ≤ 1 → log x ≤ 0)
    (currp refp : List ℚ) (hc : ∀ x ∈ currp, 0 < x) (hr : ∀ x ∈ refp, 0 < x) :
    0 ≤ psiSum log currp refp := by
  refine listSum_nonneg _ ?_
  intro t ht
  simp only [psiSum, List.mem_map] at ht
  obtain ⟨⟨c, r⟩, hmem, rfl⟩ := ht
  obtain ⟨hcm, hrm⟩ := List.of_mem_zip hmem
  have hcp : 0 < c := hc c hcm
  have hrp : 0 < r := hr r hrm
  rcases le_total r c with hle | hle
  · have h1 : (1 : ℚ) ≤ c / r := (one_le_div hrp).mpr hle
    exact mul_nonneg (by linarith) (hlog1 _ h1)
  · have h1 : c / r ≤ 1 := (div_le_one hrp).mpr hle
    have h2 : 0 < c / r := div_pos hcp hrp
    have h3 := hlog2 _ h2 h1
    have h4 : 0 ≤ (r - c) * (-(log (c / r))) :=
      mul_nonneg (by linarith) (by linarith)
    nlinarith

/-- Destructor for a defined per-column PSI value. -/
lemma psiColumn_some (log : ℚ → ℚ) (bins : ℕ) (refv currv : List ℚ) (p : ℚ)
    (h : psiColumn log bins refv currv = some p) :
    0 < refv.length ∧ 0 < currv.length ∧
    p = psiSum log
      (floorZeros ((histCounts (binEdges (histRange refv).1 (histRange refv).2 bins) currv).map
        (fun (k : ℕ) => (k : ℚ) / (currv.length : ℚ))))
      (floorZeros ((histCounts (binEdges (histRange refv).1 (histRange refv).2 bins) refv).map
        (fun (k : ℕ) => (k : ℚ) / (refv.length : ℚ)))) := by
  simp only [psiColumn] at h
  split at h
  · exact absurd h (by simp)
  · rename_i hguard
    push_neg at hguard
    refine ⟨Nat.pos_of_ne_zero hguard.1, Nat.pos_of_ne_zero hguard.2, ?_⟩
    exact ((Option.some.injEq _ _).mp h).symm

/-- On a non-degenerate reference sample (two distinct values) and a
non-empty current sample, the per-column PSI of the code coincides with the
spec's reference definition. -/
lemma psiColumn_eq_spec (log : ℚ → ℚ) (bins : ℕ) (refv currv : List ℚ)
    (mn mx : ℚ) (hmn : refv.min? = some mn) (hmx : refv.max? = some mx)
    (hlt : mn < mx) (hcne : currv ≠ []) :
    psiColumn log bins refv currv = some (psi_spec log bins refv currv) := by
  have hrne : refv ≠ [] := by
    intro hc
    rw [hc] at hmn
    exact absurd hmn (by simp [List.min?])
  have hrange : histRange refv = (mn, mx) := by
    simp only [histRange, hmn, hmx]
    rw [if_neg (ne_of_lt hlt)]
  have hedges : binEdges (histRange refv).1 (histRange refv).2 bins =
      specEdges refv bins := by
    rw [hrange]
    simp [binEdges, specEdges, hmn, hmx]
  simp only [psiColumn, psi_spec, floorZeros, psiSum, hedges]
  rw [if_neg]
  push_neg
  exact ⟨fun hc => hrne (List.length_eq_zero.mp hc),
         fun hc => hcne (List.length_eq_zero.mp hc)⟩

/-! ### Lemmas about report serialization -/

lemma jsonValidTokens_append (a b : List JsonToken) :
    jsonValidTokens (a ++ b) = (jsonValidTokens a && jsonValidTokens b) :=
  List.all_append

lemma dump_dict_some {kvs : PyFields} {ts : List JsonToken}
    (h : dumpFields (convertFields kvs) = some ts) :
    dump (convert (.dict kvs)) = some ([JsonToken.lbrace] ++ ts ++ [JsonToken.rbrace]) := by
  simp only [convert, dump, h]

lemma dump_listVal_some {xs : PyList} {ts : List JsonToken}
    (h : dumpList (convertList xs) = some ts) :
    dump (convert (.list xs)) = some ([JsonToken.lbrack] ++ ts ++ [JsonToken.rbrack]) := by
  simp only [convert, dump, h]

lemma dumpFields_cons_some {k : String} {v : PyVal} {rest : PyFields}
    {tv tr : List JsonToken}
    (hv : dump (convert v) = some tv)
    (hr : dumpFields (convertFields rest) = some tr) :
    dumpFields (convertFields (.cons k v rest)) =
      some ([JsonToken.strTok k, JsonToken.colon] ++ tv ++ tr) := by
  simp only [convertFields, dumpFields, hv, hr]

lemma dumpList_cons_some {v : PyVal} {rest : PyList} {tv tr : List JsonToken}
    (hv : dump (convert v) = some tv)
    (hr : dumpList (convertList rest) = some tr) :
    dumpList (convertList (.cons v rest)) = some (tv ++ tr) := by
  simp only [convertList, dumpList, hv, hr]

lemma dumpFields_nil_some : dumpFields (convertFields .nil) = some [] := rfl

lemma dump_convert_str (s : String) :
    dump (convert (.str s)) = some [JsonToken.strTok s] := rfl

lemma dumpList_nil_some : dumpList (convertList .nil) = some [] := rfl

/-- A list of string values serializes to its string tokens, all valid. -/
lemma namesList_tokens (names : List String) :
    ∃ ts, dumpList (convertList (pyListOf (names.map PyVal.str))) = some ts ∧
      jsonValidTokens ts = true := by
  induction names with
  | nil => exact ⟨[], rfl, rfl⟩
  | cons nm rest ih =>
      obtain ⟨ts, hts, hval⟩ := ih
      refine ⟨[.strTok nm] ++ ts, ?_, ?_⟩
      · simp only [List.map_cons, pyListOf]
        exact dumpList_cons_some (dump_convert_str nm) hts
      · rw [jsonValidTokens_append, hval]
        rfl

/-- A per-column KS result dict serializes, with only valid tokens. -/
lemma ksResult_tokens (r : KSResult) :
    ∃ ts, dump (convert (ksResultToPy r)) = some ts ∧ jsonValidTokens ts = true := by
  refine ⟨_, rfl, ?_⟩
  cases r.is_drifted <;> rfl

/-- A per-column PSI result dict serializes; its tokens are valid exactly
when its psi value is finite. -/
lemma psiResult_tokens (r : PSIResult) :
    ∃ ts, dump (convert (psiResultToPy r)) = some ts ∧
      jsonValidTokens ts = r.psi.isSome := by
  refine ⟨_, rfl, ?_⟩
  cases r.psi <;> cases r.is_drifted <;> rfl

/-- A column-statistics dict serializes; its tokens are valid exactly when
no statistic is NaN. -/
lemma colStats_tokens (c : ColStats) :
    ∃ ts, dump (convert (colStatsToPy c)) = some ts ∧
      jsonValidTokens ts = ! c.hasNaN := by
  refine ⟨_, rfl, ?_⟩
  obtain ⟨m, sd, mi, ma, me, q1, q2⟩ := c
  cases m <;> cases sd <;> cases mi <;> cases ma <;> cases me <;>
    cases q1 <;> cases q2 <;> rfl

/-- The KS details mapping serializes with only valid tokens. -/
lemma ksDetails_tokens (l : List (String × KSResult)) :
    ∃ ts, dumpFields (convertFields (fieldsOf
        (l.map (fun p => (p.1, ksResultToPy p.2))))) = some ts ∧
      jsonValidTokens ts = true := by
  induction l with
  | nil => exact ⟨[], rfl, rfl⟩
  | cons p rest ih =>
      obtain ⟨k, r⟩ := p
      obtain ⟨ts, hts, hval⟩ := ih
      obtain ⟨tc, htc, hvc⟩ := ksResult_tokens r
      refine ⟨[.strTok k, .colon] ++ tc ++ ts, ?_, ?_⟩
      · simp only [List.map_cons, fieldsOf]
        exact dumpFields_cons_some htc hts
      · rw [jsonValidTokens_append, jsonValidTokens_append, hval, hvc]
        rfl

/-- The PSI details mapping serializes; its tokens are valid exactly when
every recorded psi is finite. -/
lemma psiDetails_tokens (l : List (String × PSIResult)) :
    ∃ ts, dumpFields (convertFields (fieldsOf
        (l.map (fun p => (p.1, psiResultToPy p.2))))) = some ts ∧
      jsonValidTokens ts = !(l.any (fun p => (p.2).psi.isNone)) := by
  induction l with
  | nil => exact ⟨[], rfl, rfl⟩
  | cons p rest ih =>
      obtain ⟨k, r⟩ := p
      obtain ⟨ts, hts, hval⟩ := ih
      obtain ⟨tc, htc, hvc⟩ := psiResult_tokens r
      refine ⟨[.strTok k, .colon] ++ tc ++ ts, ?_, ?_⟩
      · simp only [List.map_cons, fieldsOf]
        exact dumpFields_cons_some htc hts
      · rw [jsonValidTokens_append, jsonValidTokens_append, hval, hvc]
        simp only [List.any_cons]
        cases r.psi <;>
          cases hx : rest.any (fun q => (q.2).psi.isNone) <;> rfl

/-- The statistics mapping serializes; its tokens are valid exactly when no
column's statistics hold a NaN. -/
lemma statsFields_tokens (m : List (String × ColStats)) :
    ∃ ts, dumpFields (convertFields (fieldsOf
        (m.map (fun p => (p.1, colStatsToPy p.2))))) = some ts ∧
      jsonValidTokens ts = !(m.any (fun p => (p.2).hasNaN)) := by
  induction m with
  | nil => exact ⟨[], rfl, rfl⟩
  | cons p rest ih =>
      obtain ⟨k, r⟩ := p
      obtain ⟨ts, hts, hval⟩ := ih
      obtain ⟨tc, htc, hvc⟩ := colStats_tokens r
      refine ⟨[.strTok k, .colon] ++ tc ++ ts, ?_, ?_⟩
      · simp only [List.map_cons, fieldsOf]
        exact dumpFields_cons_some htc hts
      · rw [jsonValidTokens_append, jsonValidTokens_append, hval, hvc]
        simp only [List.any_cons]
        cases hy : r.hasNaN <;>
          cases hx : rest.any (fun q => (q.2).hasNaN) <;> rfl

/-- Scalar serialization facts. -/
lemma dump_convert_int (n : ℤ) :
    dump (convert (.int n)) = some [JsonToken.numTok (n : ℚ)] := rfl

lemma dump_convert_finite (q : ℚ) :
    dump (convert (.float (.finite q))) = some [JsonToken.numTok q] := rfl

lemma dump_convert_bool (b : Bool) :
    dump (convert (.bool b)) =
      some [if b then JsonToken.trueTok else JsonToken.falseTok] := rfl

/-- A test summary of KS results serializes with only valid tokens. -/
lemma ksSummary_tokens (s : TestSummary KSResult) :
    ∃ ts, dump (convert (summaryToPy ksResultToPy s)) = some ts ∧
      jsonValidTokens ts = true := by
  obtain ⟨tn, htn, hvn⟩ := namesList_tokens s.drifted_feature_names
  obtain ⟨td, htd, hvd⟩ := ksDetails_tokens s.details
  refine ⟨_, dump_dict_some
      (dumpFields_cons_some (dump_convert_int _)
        (dumpFields_cons_some (dump_convert_int _)
          (dumpFields_cons_some (dump_convert_finite _)
            (dumpFields_cons_some (dump_listVal_some htn)
              (dumpFields_cons_some (dump_dict_some htd) dumpFields_nil_some))))), ?_⟩
  simp only [jsonValidTokens_append, hvn, hvd]
  rfl

/-- A test summary of PSI results serializes; its tokens are valid exactly
when every recorded psi is finite. -/
lemma psiSummary_tokens (s : TestSummary PSIResult) :
    ∃ ts, dump (convert (summaryToPy psiResultToPy s)) = some ts ∧
      jsonValidTokens ts = !(s.details.any (fun p => (p.2).psi.isNone)) := by
  obtain ⟨tn, htn, hvn⟩ := namesList_tokens s.drifted_feature_names
  obtain ⟨td, htd, hvd⟩ := psiDetails_tokens s.details
  refine ⟨_, dump_dict_some
      (dumpFields_cons_some (dump_convert_int _)
        (dumpFields_cons_some (dump_convert_int _)
          (dumpFields_cons_some (dump_convert_finite _)
            (dumpFields_cons_some (dump_listVal_some htn)
              (dumpFields_cons_some (dump_dict_some htd) dumpFields_nil_some))))), ?_⟩
  simp only [jsonValidTokens_append, hvn, hvd]
  cases hx : s.details.any (fun p => (p.2).psi.isNone) <;> rfl

/-- A statistics mapping serializes; its tokens are valid exactly when no
column statistic is NaN. -/
lemma statsMap_tokens (m : List (String × ColStats)) :
    ∃ ts, dump (convert (statsToPy m)) = some ts ∧
      jsonValidTokens ts = !(m.any (fun p => (p.2).hasNaN)) := by
  obtain ⟨ts, hts, hval⟩ := statsFields_tokens m
  refine ⟨_, dump_dict_some hts, ?_⟩
  simp only [jsonValidTokens_append, hval]
  cases hx : m.any (fun p => (p.2).hasNaN) <;> rfl

lemma classifyPSI_some (p : ℚ) :
    classifyPSI (some p) =
      (if p ≥ 1 / 5 then ("significant", true)
       else if p ≥ 1 / 10 then ("moderate", true)
       else ("none", false)) := rfl

/-! ### The claims -/

/-- C1: the claim says a column present in the reference but absent from the
current data does not count toward `total_features`, which should equal the
number of columns actually tested. It is false: for detector `dA` (reference
columns `a`, `b`) and current data `curA` (only column `a`), both tests
report `total_features = 2` while only one column was tested (`details` has
the single key `a`). -/
theorem C1_counterexample :
    (detect_drift_ks_test dA ksConst curA none).map
      (fun s => (s.total_features, s.details.map Prod.fst)) = some (2, ["a"]) ∧
    (detect_drift_psi dA logLin curA none 10).map
      (fun s => (s.total_features, s.details.map Prod.fst)) = some (2, ["a"]) := by
  decide

/-- C1 (amended): a column absent from the current data is skipped (it gets
no `details` entry and is never tested), but it still counts toward
`total_features`, which equals the number of requested columns
(`len(columns)`), not the number of columns actually tested. -/
theorem C1_total_features_amended (d : DataDriftDetector)
    (ks2samp : List ℚ → List ℚ → ℚ × ℚ) (log : ℚ → ℚ) (current : DataFrame)
    (columns : Option (List String)) (bins : ℕ)
    (hnd : (resolveColumns d columns).Nodup) :
    (∀ s, detect_drift_ks_test d ks2samp current columns = some s →
      s.total_features = (resolveColumns d columns).length ∧
      s.details.map Prod.fst =
        (resolveColumns d columns).filter (fun c => current.hasColumn c)) ∧
    (∀ s, detect_drift_psi d log current columns bins = some s →
      s.total_features = (resolveColumns d columns).length ∧
      s.details.map Prod.fst =
        (resolveColumns d columns).filter (fun c => current.hasColumn c)) := by
  constructor
  · intro s h
    refine ⟨(detect_ks_components d ks2samp current columns s h).1, ?_⟩
    rw [(detect_ks_closed d ks2samp current columns s hnd h).1, List.map_map]
    have hid : (Prod.fst ∘ fun c => (c, ksResultFor d ks2samp current c)) =
        (id : String → String) := rfl
    rw [hid, List.map_id]
  · intro s h
    refine ⟨(detect_psi_components d log current columns bins s h).1, ?_⟩
    rw [(detect_psi_closed d log current columns bins s hnd h).1, List.map_map]
    have hid : (Prod.fst ∘ fun c => (c, psiResultFor d log bins current c)) =
        (id : String → String) := rfl
    rw [hid, List.map_id]

/-- C1 (amended) at the concrete input of the counterexample. -/
theorem C1_witness :
    sA.total_features = (resolveColumns dA none).length ∧
    sA.details.map Prod.fst =
      (resolveColumns dA none).filter (fun c => curA.hasColumn c) :=
  (C1_total_features_amended dA ksConst logLin curA none 10 (by decide)).1
    sA (by decide)

/-- C2: the claim says `drift_percentage = drifted/total*100` and that
`total_features = 0` (a reference dataset with no numeric columns) yields an
explicit 0% instead of a division-by-zero failure. The second half is
false: for the detector `dE`, whose reference data has no numeric columns,
both tests raise `ZeroDivisionError` (modelled by `none`) instead of
returning a summary. -/
theorem C2_counterexample :
    detect_drift_ks_test dE ksConst curA none = none ∧
    detect_drift_psi dE logLin curA none 10 = none := by
  decide

/-- C2 (amended): whenever a summary is returned, `drift_percentage =
drifted_features / total_features * 100` and `total_features > 0`; an empty
resolved column set makes both tests raise `ZeroDivisionError` (modelled by
`none`) rather than yield 0%. -/
theorem C2_drift_percentage_amended (d : DataDriftDetector)
    (ks2samp : List ℚ → List ℚ → ℚ × ℚ) (log : ℚ → ℚ) (current : DataFrame)
    (columns : Option (List String)) (bins : ℕ) :
    (∀ s, detect_drift_ks_test d ks2samp current columns = some s →
      s.drift_percentage =
        (s.drifted_features : ℚ) / (s.total_features : ℚ) * 100 ∧
      0 < s.total_features) ∧
    (∀ s, detect_drift_psi d log current columns bins = some s →
      s.drift_percentage =
        (s.drifted_features : ℚ) / (s.total_features : ℚ) * 100 ∧
      0 < s.total_features) ∧
    (resolveColumns d columns = [] →
      detect_drift_ks_test d ks2samp current columns = none ∧
      detect_drift_psi d log current columns bins = none) := by
  refine ⟨?_, ?_, ?_⟩
  · intro s h
    obtain ⟨ht, hd, hp, _, _, hne⟩ := detect_ks_components d ks2samp current columns s h
    refine ⟨?_, ?_⟩
    · rw [hp, ht, hd]
    · rw [ht]
      exact List.length_pos.mpr hne
  · intro s h
    obtain ⟨ht, hd, hp, _, _, hne⟩ := detect_psi_components d log current columns bins s h
    refine ⟨?_, ?_⟩
    · rw [hp, ht, hd]
    · rw [ht]
      exact List.length_pos.mpr hne
  · intro h
    exact ⟨detect_ks_none d ks2samp current columns h,
           detect_psi_none d log current columns bins h⟩

/-- C2 (amended) at concrete inputs: the returned summary `sA` satisfies the
percentage equation, and the empty-column detector raises. -/
theorem C2_witness :
    (sA.drift_percentage =
       (sA.drifted_features : ℚ) / (sA.total_features : ℚ) * 100 ∧
     0 < sA.total_features) ∧
    (detect_drift_ks_test dE ksConst curA none = none ∧
     detect_drift_psi dE logLin curA none 10 = none) :=
  ⟨(C2_drift_percentage_amended dA ksConst logLin curA none 10).1 sA (by decide),
   (C2_drift_percentage_amended dE ksConst logLin curA none 10).2.2 (by decide)⟩

/-- C3: in every report `generate_drift_report` returns,
`overall_drift_detected` is true iff `ks_test.drifted_features > 0` or
`psi_test.drifted_features > 0`. -/
theorem C3_overall_drift_detected (d : DataDriftDetector)
    (ks2samp : List ℚ → List ℚ → ℚ × ℚ) (log sqrtA : ℚ → ℚ) (now : String)
    (current : DataFrame) (r : DriftReport)
    (h : generate_drift_report d ks2samp log sqrtA now current = some r) :
    r.overall_drift_detected = true ↔
      (r.ks_test.drifted_features > 0 ∨ r.psi_test.drifted_features > 0) := by
  simp only [generate_drift_report] at h
  split at h
  · exact absurd h (by simp)
  · split at h
    · exact absurd h (by simp)
    · rw [Option.some.injEq] at h
      subst h
      simp [decide_eq_true_iff]

/-- C3 at the concrete report `reportB`. -/
theorem C3_witness :
    reportB.overall_drift_detected = true ↔
      (reportB.ks_test.drifted_features > 0 ∨
       reportB.psi_test.drifted_features > 0) :=
  C3_overall_drift_detected dB ksConst logLin sqrtId "2026-03-01T00:00:00"
    curB reportB (by decide)

/-- C4: the claim says two calls of `generate_drift_report` on the same
detector with identical current data return identical reports. It is false:
the report embeds `pd.Timestamp.now().isoformat()` (the clock reading,
modelled as the explicit `now` argument), so two calls one second apart
return different reports. -/
theorem C4_counterexample :
    generate_drift_report dB ksConst logLin sqrtId "2026-03-01T00:00:00" curB ≠
    generate_drift_report dB ksConst logLin sqrtId "2026-03-01T00:00:01" curB := by
  decide

/-- C4 (amended): the report-generation path has no randomness — the report
is a deterministic function of the detector, the current data and the clock
reading, and two calls with identical current data agree on every field
except `timestamp`. -/
theorem C4_deterministic_amended (d : DataDriftDetector)
    (ks2samp : List ℚ → List ℚ → ℚ × ℚ) (log sqrtA : ℚ → ℚ)
    (t1 t2 : String) (current : DataFrame) :
    (generate_drift_report d ks2samp log sqrtA t1 current).map DriftReport.core =
    (generate_drift_report d ks2samp log sqrtA t2 current).map DriftReport.core := by
  simp only [generate_drift_report]
  cases hks : detect_drift_ks_test d ks2samp current none with
  | none => rfl
  | some ksr =>
      cases hpsi : detect_drift_psi d log current none 10 with
      | none => rfl
      | some psir => rfl

/-- C5: the claim says `save_report` serializes every report to valid JSON,
preserving non-finite values as null or a documented sentinel. It is false:
the concrete report `reportB` (returned by `generate_drift_report` on
one-row frames, whose sample standard deviation is NaN) serializes without
failure, but the NaN is written as the bare token `NaN`, which is not in
the JSON grammar. -/
theorem C5_counterexample :
    generate_drift_report dB ksConst logLin sqrtId "2026-03-01T00:00:00" curB =
      some reportB ∧
    (save_report_tokens reportB).isSome = true ∧
    JsonToken.nanTok ∈ (save_report_tokens reportB).getD [] ∧
    jsonValidTokens ((save_report_tokens reportB).getD []) = false := by
  decide

/-- C5 (amended): serializing a report never fails (`json.dump` with its
defaults raises nothing), and the output is made of valid JSON tokens
exactly when the report holds no non-finite value; a NaN in the report is
emitted as the bare non-JSON token `NaN` rather than as null or a
sentinel. -/
theorem C5_serialization_amended (r : DriftReport) :
    ∃ ts, save_report_tokens r = some ts ∧
      jsonValidTokens ts = ! r.hasNaN := by
  obtain ⟨tk, htk, hvk⟩ := ksSummary_tokens r.ks_test
  obtain ⟨tp, htp, hvp⟩ := psiSummary_tokens r.psi_test
  obtain ⟨tr, htr, hvr⟩ := statsMap_tokens r.statistics_reference
  obtain ⟨tc, htc, hvc⟩ := statsMap_tokens r.statistics_current
  refine ⟨_, dump_dict_some
    (dumpFields_cons_some (dump_convert_str _)
      (dumpFields_cons_some (dump_convert_int _)
        (dumpFields_cons_some (dump_convert_int _)
          (dumpFields_cons_some htk
            (dumpFields_cons_some htp
              (dumpFields_cons_some (dump_dict_some
                  (dumpFields_cons_some htr
                    (dumpFields_cons_some htc dumpFields_nil_some)))
                (dumpFields_cons_some (dump_convert_bool _)
                  dumpFields_nil_some))))))), ?_⟩
  simp only [jsonValidTokens_append, hvk, hvp, hvr, hvc]
  unfold DriftReport.hasNaN
  cases hx : r.psi_test.details.any (fun p => (p.2).psi.isNone) <;>
    cases hy : r.statistics_reference.any (fun p => (p.2).hasNaN) <;>
      cases hz : r.statistics_current.any (fun p => (p.2).hasNaN) <;>
        cases hb : r.overall_drift_detected <;> rfl

/-- C6: every psi value `detect_drift_psi` reports equals the spec's
reference definition `psi_spec` (reference-only equal-width bin edges, the
same edges on the current sample, per-sample fractions, zero fractions
replaced by 0.0001, PSI = Σ (curr − ref) · log(curr / ref)). Stated for a
reference sample with two distinct values and a non-empty current sample —
the degenerate cases (zero-variance or fully-missing columns) the spec's §9
explicitly leaves undefined. -/
theorem C6_psi_refines_spec (d : DataDriftDetector) (log : ℚ → ℚ)
    (current : DataFrame) (columns : Option (List String)) (bins : ℕ)
    (s : TestSummary PSIResult)
    (h : detect_drift_psi d log current columns bins = some s) :
    ∀ col res, (col, res) ∈ s.details →
    ∀ mn mx : ℚ, (dropna (d.reference_data.getCol col)).min? = some mn →
      (dropna (d.reference_data.getCol col)).max? = some mx →
      mn < mx → dropna (current.getCol col) ≠ [] →
      res.psi = some (psi_spec log bins (dropna (d.reference_data.getCol col))
        (dropna (current.getCol col))) := by
  intro col res hmem mn mx hmn hmx hlt hcne
  have hres : res = psiResultFor d log bins current col :=
    detect_psi_details d log current columns bins s h (col, res) hmem
  have hpsi : res.psi =
      psiColumn log bins (dropna (d.reference_data.getCol col))
        (dropna (current.getCol col)) := by
    rw [hres]
    rfl
  rw [hpsi]
  exact psiColumn_eq_spec log bins _ _ mn mx hmn hmx hlt hcne

/-- C6 at the concrete input: the reported psi of column `a` equals the
spec's definition. -/
theorem C6_witness :
    resAP.psi = some (psi_spec logLin 10 (dropna (dA.reference_data.getCol "a"))
      (dropna (curA.getCol "a"))) :=
  C6_psi_refines_spec dA logLin curA none 10 sAP (by decide) "a" resAP
    (by decide) 0 1 (by decide) (by decide) (by decide) (by decide)

/-- C7: every column result of `detect_drift_psi` is classified by its psi
value: psi ≥ 0.2 (= 1/5) gives level "significant" and drifted; 0.1 ≤ psi
< 0.2 gives "moderate" and drifted; psi < 0.1 (= 1/10) gives "none" and not
drifted. -/
theorem C7_psi_classification (d : DataDriftDetector) (log : ℚ → ℚ)
    (current : DataFrame) (columns : Option (List String)) (bins : ℕ)
    (s : TestSummary PSIResult)
    (h : detect_drift_psi d log current columns bins = some s) :
    ∀ col res, (col, res) ∈ s.details → ∀ p : ℚ, res.psi = some p →
      ((1 / 5 ≤ p → res.drift_level = "significant" ∧ res.is_drifted = true) ∧
       (1 / 10 ≤ p ∧ p < 1 / 5 →
         res.drift_level = "moderate" ∧ res.is_drifted = true) ∧
       (p < 1 / 10 → res.drift_level = "none" ∧ res.is_drifted = false)) := by
  intro col res hmem p hp
  have hres : res = psiResultFor d log bins current col :=
    detect_psi_details d log current columns bins s h (col, res) hmem
  have h1 : res.drift_level =
      (classifyPSI (psiColumn log bins (dropna (d.reference_data.getCol col))
        (dropna (current.getCol col)))).1 := by
    rw [hres]
    rfl
  have h2 : res.is_drifted =
      (classifyPSI (psiColumn log bins (dropna (d.reference_data.getCol col))
        (dropna (current.getCol col)))).2 := by
    rw [hres]
    rfl
  have hp' : psiColumn log bins (dropna (d.reference_data.getCol col))
      (dropna (current.getCol col)) = some p := by
    rw [hres] at hp
    exact hp
  rw [h1, h2, hp', classifyPSI_some]
  split_ifs with ha hb
  · refine ⟨fun _ => ⟨rfl, rfl⟩, fun hx => ?_, fun hx => ?_⟩
    · exact absurd ha (not_le.mpr hx.2)
    · exact absurd hx (not_lt.mpr (le_trans (by norm_num) ha))
  · refine ⟨fun hx => absurd ha (by simpa using hx), fun _ => ⟨rfl, rfl⟩,
      fun hx => absurd hb (not_le.mpr hx)⟩
  · refine ⟨fun hx => absurd ha (by simpa using hx),
      fun hx => absurd hb (by simpa using hx.1), fun _ => ⟨rfl, rfl⟩⟩

/-- C7 at the concrete input: the classification of the reported psi `pA`
of column `a`. -/
theorem C7_witness :
    (1 / 5 ≤ pA → resAP.drift_level = "significant" ∧ resAP.is_drifted = true) ∧
    (1 / 10 ≤ pA ∧ pA < 1 / 5 →
      resAP.drift_level = "moderate" ∧ resAP.is_drifted = true) ∧
    (pA < 1 / 10 → resAP.drift_level = "none" ∧ resAP.is_drifted = false) :=
  C7_psi_classification dA logLin curA none 10 sAP (by decide) "a" resAP
    (by decide) pA (by decide)

/-- C8: every psi value reported by `detect_drift_psi` is non-negative,
for any logarithm with the sign behaviour of `ln` (non-negative at or above
1, non-positive on (0, 1]); the samples' non-emptiness is enforced by the
computation itself (an empty sample gives a NaN psi, excluded by
`res.psi = some p`). -/
theorem C8_psi_nonneg (d : DataDriftDetector) (log : ℚ → ℚ)
    (current : DataFrame) (columns : Option (List String)) (bins : ℕ)
    (s : TestSummary PSIResult)
    (hlog1 : ∀ x : ℚ, 1 ≤ x → 0 ≤ log x)
    (hlog2 : ∀ x : ℚ, 0 < x → x ≤ 1 → log x ≤ 0)
    (h : detect_drift_psi d log current columns bins = some s) :
    ∀ col res, (col, res) ∈ s.details → ∀ p : ℚ, res.psi = some p →
      0 ≤ p := by
  intro col res hmem p hp
  have hres : res = psiResultFor d log bins current col :=
    detect_psi_details d log current columns bins s h (col, res) hmem
  have hp' : psiColumn log bins (dropna (d.reference_data.getCol col))
      (dropna (current.getCol col)) = some p := by
    rw [hres] at hp
    exact hp
  obtain ⟨hr, hc, hpe⟩ := psiColumn_some _ _ _ _ _ hp'
  rw [hpe]
  exact psiSum_nonneg log hlog1 hlog2 _ _
    (floorZeros_pos _ _) (floorZeros_pos _ _)

/-- C8 at the concrete input: the reported psi `pA` is non-negative. -/
theorem C8_witness : (0 : ℚ) ≤ pA :=
  C8_psi_nonneg dA logLin curA none 10 sAP
    (fun x hx => by simp only [logLin]; linarith)
    (fun x hx0 hx1 => by simp only [logLin]; linarith)
    (by decide) "a" resAP (by decide) pA (by decide)

/-- C9: every `detect_drift_ks_test` column result has `is_drifted` true
iff the KS p-value — computed on the reference and current samples after
each drops its missing values independently — is strictly below the
detector's threshold; its `p_value`/`statistic` fields are that
computation's outputs and its `threshold` field is the detector's
threshold. -/
theorem C9_ks_is_drifted (d : DataDriftDetector)
    (ks2samp : List ℚ → List ℚ → ℚ × ℚ) (current : DataFrame)
    (columns : Option (List String)) (s : TestSummary KSResult)
    (h : detect_drift_ks_test d ks2samp current columns = some s) :
    ∀ col res, (col, res) ∈ s.details →
      ((res.is_drifted = true ↔
          (ks2samp (dropna (d.reference_data.getCol col))
            (dropna (current.getCol col))).2 < d.threshold) ∧
       res.p_value = (ks2samp (dropna (d.reference_data.getCol col))
          (dropna (current.getCol col))).2 ∧
       res.statistic = (ks2samp (dropna (d.reference_data.getCol col))
          (dropna (current.getCol col))).1 ∧
       res.threshold = d.threshold) := by
  intro col res hmem
  have hres : res = ksResultFor d ks2samp current col :=
    detect_ks_details d ks2samp current columns s h (col, res) hmem
  rw [hres]
  refine ⟨?_, rfl, rfl, rfl⟩
  simp [ksResultFor]

/-- C9 at the concrete input: column `a`'s recorded result against the
stand-in KS routine. -/
theorem C9_witness :
    (resA.is_drifted = true ↔
       (ksConst (dropna (dA.reference_data.getCol "a"))
         (dropna (curA.getCol "a"))).2 < dA.threshold) ∧
    resA.p_value = (ksConst (dropna (dA.reference_data.getCol "a"))
       (dropna (curA.getCol "a"))).2 ∧
    resA.statistic = (ksConst (dropna (dA.reference_data.getCol "a"))
       (dropna (curA.getCol "a"))).1 ∧
    resA.threshold = dA.threshold :=
  C9_ks_is_drifted dA ksConst curA none sA (by decide) "a" resA (by decide)

/-- C10: in every returned summary, `drifted_features` is the length of
`drifted_feature_names`, the names are exactly the keys of the `details`
entries whose result is drifted, in iteration order, and
`drifted_features ≤ total_features` (stated over duplicate-free column
sets, which a dataframe's column index is). -/
theorem C10_summary_invariants (d : DataDriftDetector)
    (ks2samp : List ℚ → List ℚ → ℚ × ℚ) (log : ℚ → ℚ) (current : DataFrame)
    (columns : Option (List String)) (bins : ℕ)
    (sk : TestSummary KSResult) (sp : TestSummary PSIResult)
    (hnd : (resolveColumns d columns).Nodup)
    (hk : detect_drift_ks_test d ks2samp current columns = some sk)
    (hp : detect_drift_psi d log current columns bins = some sp) :
    (sk.drifted_features = sk.drifted_feature_names.length ∧
     sk.drifted_feature_names =
       (sk.details.filter (fun p => (p.2).is_drifted)).map Prod.fst ∧
     sk.drifted_features ≤ sk.total_features) ∧
    (sp.drifted_features = sp.drifted_feature_names.length ∧
     sp.drifted_feature_names =
       (sp.details.filter (fun p => (p.2).is_drifted)).map Prod.fst ∧
     sp.drifted_features ≤ sp.total_features) := by
  constructor
  · obtain ⟨ht, hd, _, _, _, _⟩ := detect_ks_components d ks2samp current columns sk hk
    obtain ⟨hdet, hnm⟩ := detect_ks_closed d ks2samp current columns sk hnd hk
    refine ⟨hd, ?_, ?_⟩
    · rw [hnm, hdet, List.map_filter, List.map_map]
      have hid : (Prod.fst ∘ fun c => (c, ksResultFor d ks2samp current c)) =
          (id : String → String) := rfl
      rw [hid, List.map_id]
      rfl
    · rw [hd, ht, hnm]
      exact le_trans (List.length_filter_le _ _) (List.length_filter_le _ _)
  · obtain ⟨ht, hd, _, _, _, _⟩ := detect_psi_components d log current columns bins sp hp
    obtain ⟨hdet, hnm⟩ := detect_psi_closed d log current columns bins sp hnd hp
    refine ⟨hd, ?_, ?_⟩
    · rw [hnm, hdet, List.map_filter, List.map_map]
      have hid : (Prod.fst ∘ fun c => (c, psiResultFor d log bins current c)) =
          (id : String → String) := rfl
      rw [hid, List.map_id]
      rfl
    · rw [hd, ht, hnm]
      exact le_trans (List.length_filter_le _ _) (List.length_filter_le _ _)

/-- C10 at the concrete input: the invariants of the returned summaries
`sA` and `sAP`. -/
theorem C10_witness :
    (sA.drifted_features = sA.drifted_feature_names.length ∧
     sA.drifted_feature_names =
       (sA.details.filter (fun p => (p.2).is_drifted)).map Prod.fst ∧
     sA.drifted_features ≤ sA.total_features) ∧
    (sAP.drifted_features = sAP.drifted_feature_names.length ∧
     sAP.drifted_feature_names =
       (sAP.details.filter (fun p => (p.2).is_drifted)).map Prod.fst ∧
     sAP.drifted_features ≤ sAP.total_features) :=
  C10_summary_invariants dA ksConst logLin curA none 10 sA sAP
    (by decide) (by decide) (by decide)

end Drift
